import Mathlib

/-!
Verification development for the omniscient component core (`src/component.js`).

The repository ships one source file, `component.js`, which requires two
sibling modules that are not present in the sources available here:
`./shouldupdate` (the equality engine and update-decision policy) and
`./cached` (the single-slot memoizer).  Definitions translated from
`component.js` carry ordinary doc comments; definitions standing in for the
missing modules are marked `Modelled from the spec:` and follow the
specification's algorithm sections word by word.
-/

namespace Omniscient

/-- A JavaScript runtime value, as far as this library observes it.
`vfun` carries a reference id (functions compare by reference).
`vcursor` carries a path id and the reference id of the underlying data it
points at (two cursors over structurally shared data carry the same data
reference even when their paths differ).  `vimm` is an immutable structure,
identified by its reference.  `velem` is a React element (an object for
which `React.isValidElement` answers true). -/
inductive JVal where
  | vnull
  | vundef
  | vbool (b : Bool)
  | vnum (n : Int)
  | vnan
  | vstr (s : String)
  | vfun (ref : Nat)
  | varr (elems : List JVal)
  | vobj (fields : List (String × JVal))
  | velem (fields : List (String × JVal))
  | vcursor (path : Nat) (dataRef : Nat)
  | vimm (ref : Nat)
deriving Repr

mutual
/-- Structural identity of embedded values.  In this embedding a value
stands for a reference, so reference identity (`===` on objects) is
modelled as structural identity of `JVal`. -/
def jbeq : JVal → JVal → Bool
  | .vnull, .vnull => true
  | .vundef, .vundef => true
  | .vbool a, .vbool b => a == b
  | .vnum a, .vnum b => a == b
  | .vnan, .vnan => true
  | .vstr a, .vstr b => a == b
  | .vfun a, .vfun b => a == b
  | .varr xs, .varr ys => jbeqList xs ys
  | .vobj fs, .vobj gs => jbeqFields fs gs
  | .velem fs, .velem gs => jbeqFields fs gs
  | .vcursor p r, .vcursor q s => p == q && r == s
  | .vimm r, .vimm s => r == s
  | _, _ => false

def jbeqList : List JVal → List JVal → Bool
  | [], [] => true
  | x :: xs, y :: ys => jbeq x y && jbeqList xs ys
  | _, _ => false

def jbeqFields : List (String × JVal) → List (String × JVal) → Bool
  | [], [] => true
  | (k, v) :: fs, (l, w) :: gs => k == l && jbeq v w && jbeqFields fs gs
  | _, _ => false
end

mutual
theorem jbeq_refl : ∀ a, jbeq a a = true
  | .vnull => rfl
  | .vundef => rfl
  | .vbool a => by simp [jbeq]
  | .vnum a => by simp [jbeq]
  | .vnan => rfl
  | .vstr a => by simp [jbeq]
  | .vfun a => by simp [jbeq]
  | .varr xs => by simp [jbeq, jbeqList_refl xs]
  | .vobj fs => by simp [jbeq, jbeqFields_refl fs]
  | .velem fs => by simp [jbeq, jbeqFields_refl fs]
  | .vcursor p r => by simp [jbeq]
  | .vimm r => by simp [jbeq]

theorem jbeqList_refl : ∀ xs, jbeqList xs xs = true
  | [] => rfl
  | x :: xs => by simp [jbeqList, jbeq_refl x, jbeqList_refl xs]

theorem jbeqFields_refl : ∀ fs, jbeqFields fs fs = true
  | [] => rfl
  | (k, v) :: fs => by simp [jbeqFields, jbeq_refl v, jbeqFields_refl fs]
end

/-- JavaScript `typeof`. -/
def jsTypeof : JVal → String
  | .vnull => "object"
  | .vundef => "undefined"
  | .vbool _ => "boolean"
  | .vnum _ => "number"
  | .vnan => "number"
  | .vstr _ => "string"
  | .vfun _ => "function"
  | .varr _ => "object"
  | .vobj _ => "object"
  | .velem _ => "object"
  | .vcursor _ _ => "object"
  | .vimm _ => "object"

/-- JavaScript truthiness: `false`, `0`, `NaN`, the empty string, `null`
and `undefined` are falsy, everything else is truthy. -/
def truthy : JVal → Bool
  | .vnull => false
  | .vundef => false
  | .vbool b => b
  | .vnum n => n != 0
  | .vnan => false
  | .vstr s => !s.isEmpty
  | _ => true

/-- JavaScript `===`, used by `Array.prototype.indexOf`: like reference
identity (modelled structurally) except that `NaN` is never strict-equal,
not even to itself. -/
def jsStrictEq (a b : JVal) : Bool :=
  match a, b with
  | .vnan, _ => false
  | _, .vnan => false
  | a, b => jbeq a b

mutual
/-- Modelled from the spec: step 4 of the Equality Engine algorithm (§4.1)
of the missing `shouldupdate.js` module.  Deep structural equality on plain
values: recursively element-wise for arrays and ordered-key maps, primitive
equality for scalars with the special rule that `NaN` equals `NaN`,
reference equality for function values.  Nested cursors compare by the
identity of the data they reference (their path is not compared) and nested
immutable structures compare by reference. -/
def deepEqual : JVal → JVal → Bool
  | .vnull, .vnull => true
  | .vundef, .vundef => true
  | .vbool a, .vbool b => a == b
  | .vnum a, .vnum b => a == b
  | .vnan, .vnan => true
  | .vstr a, .vstr b => a == b
  | .vfun a, .vfun b => a == b
  | .varr xs, .varr ys => deepEqualList xs ys
  | .vobj fs, .vobj gs => deepEqualFields fs gs
  | .velem fs, .velem gs => deepEqualFields fs gs
  | .vcursor _ r, .vcursor _ s => r == s
  | .vimm r, .vimm s => r == s
  | _, _ => false

/-- Modelled from the spec: element-wise deep equality of arrays (§4.1). -/
def deepEqualList : List JVal → List JVal → Bool
  | [], [] => true
  | x :: xs, y :: ys => deepEqual x y && deepEqualList xs ys
  | _, _ => false

/-- Modelled from the spec: ordered-key-map deep equality (§4.1). -/
def deepEqualFields : List (String × JVal) → List (String × JVal) → Bool
  | [], [] => true
  | (k, v) :: fs, (l, w) :: gs => k == l && deepEqual v w && deepEqualFields fs gs
  | _, _ => false
end

mutual
theorem deepEqual_refl : ∀ a, deepEqual a a = true
  | .vnull => rfl
  | .vundef => rfl
  | .vbool a => by simp [deepEqual]
  | .vnum a => by simp [deepEqual]
  | .vnan => rfl
  | .vstr a => by simp [deepEqual]
  | .vfun a => by simp [deepEqual]
  | .varr xs => by simp [deepEqual, deepEqualList_refl xs]
  | .vobj fs => by simp [deepEqual, deepEqualFields_refl fs]
  | .velem fs => by simp [deepEqual, deepEqualFields_refl fs]
  | .vcursor p r => by simp [deepEqual]
  | .vimm r => by simp [deepEqual]

theorem deepEqualList_refl : ∀ xs, deepEqualList xs xs = true
  | [] => rfl
  | x :: xs => by simp [deepEqualList, deepEqual_refl x, deepEqualList_refl xs]

theorem deepEqualFields_refl : ∀ fs, deepEqualFields fs fs = true
  | [] => rfl
  | (k, v) :: fs => by simp [deepEqualFields, deepEqual_refl v, deepEqualFields_refl fs]
end

/-- Modelled from the spec: the default cursor classifier of the missing
`shouldupdate.js` module (`isCursor`), a capability check that classifies a
value as a `Cursor` without inspecting its contents (§4.1). -/
def defaultIsCursor : JVal → Bool
  | .vcursor _ _ => true
  | _ => false

/-- Modelled from the spec: the default immutable-structure classifier of
the missing `shouldupdate.js` module (`isImmutable`), §4.1. -/
def defaultIsImmutable : JVal → Bool
  | .vimm _ => true
  | _ => false

/-- Modelled from the spec: the default `unCursor` of the missing
`shouldupdate.js` module (§6 `unwrapCursor`): dereferencing a cursor yields
the underlying (immutable, structurally shared) data it points at, here
represented by its reference id; non-cursors are returned unchanged. -/
def defaultUnCursor : JVal → JVal
  | .vcursor _ r => .vimm r
  | v => v

/-- Modelled from the spec: the Equality Engine `isEqual` of the missing
`shouldupdate.js` module (§4.1), parametrised by the configurable cursor
and immutable classifiers and the cursor unwrapping function.
1. both cursors: equal iff the identities of the referenced values are
   equal (not path equality);
2. both immutable structures: equal iff reference-identical;
3. cursor/immutable on one side only: not equal;
4. both plain: deep structural equality. -/
def isEqualWith (ic ii : JVal → Bool) (unc : JVal → JVal) (a b : JVal) : Bool :=
  if ic a && ic b then jbeq (unc a) (unc b)
  else if ii a && ii b then jbeq a b
  else if ic a || ic b || ii a || ii b then false
  else deepEqual a b

/-- Modelled from the spec: the Equality Engine with its default
classifiers and unwrapper (§4.1). -/
def isEqual (a b : JVal) : Bool :=
  isEqualWith defaultIsCursor defaultIsImmutable defaultUnCursor a b

theorem isEqual_refl (a : JVal) : isEqual a a = true := by
  unfold isEqual isEqualWith
  by_cases hc : defaultIsCursor a = true
  · simp [hc, jbeq_refl]
  · by_cases hi : defaultIsImmutable a = true
    · simp [hc, hi, jbeq_refl]
    · simp [hc, hi, deepEqual_refl]

/-- A Property Set: an ordered mapping from property name to value,
representing one render's full input. -/
def PropertySet := List (String × JVal)

/-- Property access `ps[k]`: the value of the first field named `k`. -/
def lookupField (ps : List (String × JVal)) (k : String) : Option JVal :=
  (ps.find? (fun kv => kv.1 == k)).map Prod.snd

theorem lookupField_isSome_of_mem_keys {ps : List (String × JVal)} {k : String}
    (h : k ∈ ps.map Prod.fst) : ∃ v, lookupField ps k = some v := by
  induction ps with
  | nil => simp at h
  | cons kv rest ih =>
    by_cases hk : kv.1 = k
    · exact ⟨kv.2, by simp [lookupField, hk]⟩
    · have : k ∈ rest.map Prod.fst := by
        rcases (by simpa using h) with h1 | h2
        · exact absurd h1.symm hk
        · simpa using h2
      obtain ⟨v, hv⟩ := ih this
      exact ⟨v, by simpa [lookupField, hk] using hv⟩

theorem lookupField_eq_none_of_not_mem_keys {ps : List (String × JVal)} {k : String}
    (h : k ∉ ps.map Prod.fst) : lookupField ps k = none := by
  induction ps with
  | nil => rfl
  | cons kv rest ih =>
    have hne : ¬ kv.1 = k := fun he => h (by simp [he])
    have hrest : k ∉ rest.map Prod.fst := fun hm => h (by simp [hm])
    simpa [lookupField, hne] using ih hrest

/-- Modelled from the spec: the configuration of the Update-Decision Policy
of the missing `shouldupdate.js` module (§4.2): a per-property equality
function, a state equality function and a predicate classifying a property
as ignorable by its key and value. -/
structure Policy where
  isEqualProp : JVal → JVal → Bool
  isEqualState : JVal → JVal → Bool
  isIgnorable : String → JVal → Bool

/-- Modelled from the spec: the default ignorable-property classifier of
the missing `shouldupdate.js` module: internal/reserved keys are excluded
from the comparison (§4.2). -/
def defaultIsIgnorable : String → JVal → Bool :=
  fun k _ => k == "statics" || k == "children"

/-- Modelled from the spec: the default state equality of the missing
`shouldupdate.js` module (§4.2): reference equality, state mutation by
convention replacing the whole state object.  Reference identity is
modelled as structural identity of the embedding. -/
def defaultIsEqualState : JVal → JVal → Bool := jbeq

/-- Modelled from the spec: the default Update-Decision Policy (§4.2). -/
def defaultPolicy : Policy :=
  { isEqualProp := isEqual
    isEqualState := defaultIsEqualState
    isIgnorable := defaultIsIgnorable }

/-- Modelled from the spec: a property set with its ignorable properties
excluded (§4.2 step 1). -/
def filteredProps (pol : Policy) (ps : List (String × JVal)) : List (String × JVal) :=
  ps.filter (fun kv => !pol.isIgnorable kv.1 kv.2)

/-- Modelled from the spec: the union of the property keys of two
(already filtered) property sets (§4.2 step 1). -/
def unionKeys (xs ys : List String) : List String :=
  xs ++ ys.filter (fun k => !xs.contains k)

/-- Modelled from the spec: §4.2 step 2 for a single key: a key present in
only one set means "should update"; a key present in both is compared with
the per-property equality function. -/
def changedKey (pol : Policy) (prevF nextF : List (String × JVal)) (k : String) : Bool :=
  match lookupField prevF k, lookupField nextF k with
  | some a, some b => !pol.isEqualProp a b
  | _, _ => true

/-- Modelled from the spec: the Update-Decision Policy `shouldUpdate` of
the missing `shouldupdate.js` module (§4.2): filter out ignorable
properties, walk the union of the remaining keys, report an update on the
first missing or unequal property, otherwise compare the states. -/
def shouldUpdate (pol : Policy) (prevProps nextProps : List (String × JVal))
    (prevState nextState : JVal) : Bool :=
  if (unionKeys ((filteredProps pol prevProps).map Prod.fst)
        ((filteredProps pol nextProps).map Prod.fst)).any
      (changedKey pol (filteredProps pol prevProps) (filteredProps pol nextProps))
  then true
  else !pol.isEqualState prevState nextState

theorem shouldUpdate_self (pol : Policy)
    (hprop : ∀ a, pol.isEqualProp a a = true)
    (hstate : ∀ a, pol.isEqualState a a = true)
    (props : List (String × JVal)) (state : JVal) :
    shouldUpdate pol props props state state = false := by
  unfold shouldUpdate
  have hany : (unionKeys ((filteredProps pol props).map Prod.fst)
      ((filteredProps pol props).map Prod.fst)).any
      (changedKey pol (filteredProps pol props) (filteredProps pol props)) = false := by
    rw [List.any_eq_false]
    intro k hk
    have hmem : k ∈ (filteredProps pol props).map Prod.fst := by
      rcases List.mem_append.mp hk with h1 | h2
      · exact h1
      · exact (List.mem_filter.mp h2).1
    obtain ⟨v, hv⟩ := lookupField_isSome_of_mem_keys hmem
    simp [changedKey, hv, hprop v]
  simp only [hany]
  simp [hstate]

/-- C1: for every property set `props` and state value `state`, calling the
update-decision predicate with identical previous and next inputs,
`shouldUpdate props props state state`, returns false — no spurious
re-renders on unchanged input. -/
theorem C1_shouldUpdate_identical_inputs_false
    (props : List (String × JVal)) (state : JVal) :
    shouldUpdate defaultPolicy props props state state = false :=
  shouldUpdate_self defaultPolicy (fun a => isEqual_refl a) (fun a => jbeq_refl a)
    props state

/-- C2: for cursors, `isEqual` is governed by the identity of the
referenced underlying data: two cursors (with arbitrary, possibly
different, paths `p` and `q`) are equal exactly when their referenced data
is reference-identical, and cursors over non-identical but deeply-equal
data compare unequal. -/
theorem C2_cursor_equality_is_reference_identity (p q r s : Nat) (heap : Nat → JVal) :
    (isEqual (.vcursor p r) (.vcursor q s) = true ↔ r = s)
    ∧ (deepEqual (heap r) (heap s) = true → r ≠ s →
        isEqual (.vcursor p r) (.vcursor q s) = false) := by
  have hbase : isEqual (.vcursor p r) (.vcursor q s) = (r == s) := by
    simp [isEqual, isEqualWith, defaultIsCursor, defaultUnCursor, jbeq]
  constructor
  · rw [hbase]; simp
  · intro _ hne; rw [hbase]; simp [hne]

/-- Witness for C2: cursors at paths 0 and 1 over the same data reference
are equal, while cursors over distinct references whose data is deeply
equal are not. -/
theorem C2_cursor_equality_witness :
    (isEqual (.vcursor 0 5) (.vcursor 1 5) = true ↔ (5 : Nat) = 5)
    ∧ (deepEqual ((fun _ => JVal.vobj [("a", JVal.vnum 1)]) (0 : Nat))
          ((fun _ => JVal.vobj [("a", JVal.vnum 1)]) 1) = true
        ∧ (0 : Nat) ≠ 1
        ∧ isEqual (.vcursor 0 0) (.vcursor 1 1) = false) :=
  ⟨(C2_cursor_equality_is_reference_identity 0 1 5 5 (fun _ => JVal.vnull)).1,
    by decide, by decide,
    (C2_cursor_equality_is_reference_identity 0 1 0 1
      (fun _ => JVal.vobj [("a", JVal.vnum 1)])).2 (by decide) (by decide)⟩

/-- C5: the equality engine is reflexive: `isEqual a a` is true for every
value `a`, including the special case `isEqual NaN NaN = true`. -/
theorem C5_isEqual_reflexive :
    (∀ a : JVal, isEqual a a = true) ∧ isEqual .vnan .vnan = true :=
  ⟨isEqual_refl, isEqual_refl .vnan⟩

/-- C6: starting from property sets that compare equal under
`shouldUpdate`, appending a property whose key/value the configured
`isIgnorable` classifies as ignorable never flips the verdict to true (the
computation is unchanged), while appending a non-ignorable property whose
key is not among the previous (non-ignorable) keys flips the verdict to
true. -/
theorem C6_ignorable_keys_excluded (pol : Policy)
    (prev next : List (String × JVal)) (ps ns : JVal) (k : String) (v : JVal)
    (h0 : shouldUpdate pol prev next ps ns = false) :
    (pol.isIgnorable k v = true →
      shouldUpdate pol prev (next ++ [(k, v)]) ps ns = false)
    ∧ (pol.isIgnorable k v = false →
      k ∉ (filteredProps pol prev).map Prod.fst →
      shouldUpdate pol prev (next ++ [(k, v)]) ps ns = true) := by
  constructor
  · intro hig
    have hsame : filteredProps pol (next ++ [(k, v)]) = filteredProps pol next := by
      simp [filteredProps, List.filter_append, hig]
    calc shouldUpdate pol prev (next ++ [(k, v)]) ps ns
        = shouldUpdate pol prev next ps ns := by
          unfold shouldUpdate; rw [hsame]
      _ = false := h0
  · intro hig hk
    have hnextF : filteredProps pol (next ++ [(k, v)])
        = filteredProps pol next ++ [(k, v)] := by
      simp [filteredProps, List.filter_append, hig]
    unfold shouldUpdate
    rw [hnextF]
    have hmem : k ∈ unionKeys ((filteredProps pol prev).map Prod.fst)
        ((filteredProps pol next ++ [(k, v)]).map Prod.fst) := by
      unfold unionKeys
      refine List.mem_append.mpr (Or.inr ?_)
      refine List.mem_filter.mpr ⟨by simp, ?_⟩
      simpa using hk
    have hchanged : changedKey pol (filteredProps pol prev)
        (filteredProps pol next ++ [(k, v)]) k = true := by
      unfold changedKey
      rw [lookupField_eq_none_of_not_mem_keys hk]
    have hany : (unionKeys ((filteredProps pol prev).map Prod.fst)
        ((filteredProps pol next ++ [(k, v)]).map Prod.fst)).any
        (changedKey pol (filteredProps pol prev)
          (filteredProps pol next ++ [(k, v)])) = true :=
      List.any_eq_true.mpr ⟨k, hmem, hchanged⟩
    rw [if_pos hany]

/-- Modelled from the spec: the first offending key of a comparison, used
by the debug trace to identify which property triggered a true verdict
(§4.2 debug/trace mode). -/
def firstChangedKey (pol : Policy) (prevF nextF : List (String × JVal))
    (keys : List String) : Option String :=
  keys.find? (changedKey pol prevF nextF)

/-- Modelled from the spec: the Update-Decision Policy with debug/trace
mode (§4.2): when enabled it emits a record of the verdict and, on a true
verdict, identifies the key or state change that triggered it; the trace is
data only, returned beside the verdict. -/
def shouldUpdateTraced (pol : Policy) (dbg : Bool)
    (prevProps nextProps : List (String × JVal)) (prevState nextState : JVal) :
    Bool × List String :=
  match firstChangedKey pol (filteredProps pol prevProps) (filteredProps pol nextProps)
      (unionKeys ((filteredProps pol prevProps).map Prod.fst)
        ((filteredProps pol nextProps).map Prod.fst)) with
  | some k =>
    (true, if dbg then ["shouldComponentUpdate => true (prop " ++ k ++ " changed)"] else [])
  | none =>
    if pol.isEqualState prevState nextState then
      (false, if dbg then ["shouldComponentUpdate => false"] else [])
    else
      (true, if dbg then ["shouldComponentUpdate => true (state changed)"] else [])

theorem shouldUpdateTraced_fst (pol : Policy) (dbg : Bool)
    (prevProps nextProps : List (String × JVal)) (prevState nextState : JVal) :
    (shouldUpdateTraced pol dbg prevProps nextProps prevState nextState).fst
      = shouldUpdate pol prevProps nextProps prevState nextState := by
  unfold shouldUpdateTraced shouldUpdate firstChangedKey
  cases hfind : (unionKeys ((filteredProps pol prevProps).map Prod.fst)
      ((filteredProps pol nextProps).map Prod.fst)).find?
      (changedKey pol (filteredProps pol prevProps) (filteredProps pol nextProps)) with
  | none =>
    have hany : (unionKeys ((filteredProps pol prevProps).map Prod.fst)
        ((filteredProps pol nextProps).map Prod.fst)).any
        (changedKey pol (filteredProps pol prevProps) (filteredProps pol nextProps))
        = false := by
      rw [List.any_eq_false]
      intro x hx
      have := List.find?_eq_none.mp hfind x hx
      simpa using this
    cases hst : pol.isEqualState prevState nextState <;>
      simp [hst, hany]
  | some k =>
    have hmem := List.mem_of_find?_eq_some hfind
    have hkey := List.find?_some hfind
    have hany : (unionKeys ((filteredProps pol prevProps).map Prod.fst)
        ((filteredProps pol nextProps).map Prod.fst)).any
        (changedKey pol (filteredProps pol prevProps) (filteredProps pol nextProps))
        = true := List.any_eq_true.mpr ⟨k, hmem, hkey⟩
    rw [if_pos hany]

/-- The type of a configurable should-update predicate, as passed around by
`component.js`: `(previousProps, nextProps, previousState, nextState)` to a
boolean verdict. -/
def UpdateFn :=
  List (String × JVal) → List (String × JVal) → JVal → JVal → Bool

/-- Modelled from the spec: the Memoization Cache of the missing
`cached.js` module treats a positional argument list as a property set
keyed by position (§4.3). -/
def argsToProps (args : List JVal) : List (String × JVal) :=
  args.enum.map (fun p => (Nat.repr p.1, p.2))

/-- Modelled from the spec: the single cache slot of the Memoization Cache,
holding the last-seen argument list and the last computed output (§4.3,
Data Model "Cache Entry"). -/
structure CacheSlot where
  args : List JVal
  result : JVal
deriving Repr

/-- Modelled from the spec: invoking the wrapped computation (§4.3 failure
mode): on success the cache slot is replaced with the new arguments and new
result; if the computation raises, the cache is not updated and the error
propagates unchanged.  The third component records that the wrapped
computation was invoked. -/
def cacheInvoke (f : List JVal → Except String JVal) (slot : Option CacheSlot)
    (args : List JVal) : Except String JVal × Option CacheSlot × Bool :=
  match f args with
  | .ok r => (.ok r, some ⟨args, r⟩, true)
  | .error e => (.error e, slot, true)

/-- Modelled from the spec: one call through the Memoization Cache of the
missing `cached.js` module (§4.3): if the new argument list is judged "not
changed" against the stored one by the Update-Decision Policy, the cached
result is returned without invoking the computation; otherwise the
computation runs. -/
def cachedCall (upd : UpdateFn) (f : List JVal → Except String JVal)
    (slot : Option CacheSlot) (args : List JVal) :
    Except String JVal × Option CacheSlot × Bool :=
  match slot with
  | some c =>
    if upd (argsToProps c.args) (argsToProps args) .vnull .vnull then
      cacheInvoke f (some c) args
    else
      (.ok c.result, some c, false)
  | none => cacheInvoke f none args

/-- C3: memoizing a pure computation: the first call invokes it and fills
the single slot; a second call with an argument list the policy judges
equal returns the cached result without invoking it again; a call with a
judged-unequal argument list invokes it again, after which the single slot
holds the newest arguments and newest result. -/
theorem C3_single_slot_memoization (upd : UpdateFn) (f : List JVal → JVal)
    (args1 args2 args3 : List JVal)
    (heq : upd (argsToProps args1) (argsToProps args2) .vnull .vnull = false)
    (hneq : upd (argsToProps args1) (argsToProps args3) .vnull .vnull = true) :
    cachedCall upd (fun as => .ok (f as)) none args1
      = (.ok (f args1), some ⟨args1, f args1⟩, true)
    ∧ cachedCall upd (fun as => .ok (f as)) (some ⟨args1, f args1⟩) args2
      = (.ok (f args1), some ⟨args1, f args1⟩, false)
    ∧ cachedCall upd (fun as => .ok (f as)) (some ⟨args1, f args1⟩) args3
      = (.ok (f args3), some ⟨args3, f args3⟩, true) := by
  refine ⟨rfl, ?_, ?_⟩
  · simp [cachedCall, heq]
  · simp [cachedCall, cacheInvoke, hneq]

/-- Witness for C3: caching the array-of-arguments computation under the
default policy; `[1]` then `[1]` hits the cache, `[2]` misses it. -/
theorem C3_single_slot_memoization_witness :
    shouldUpdate defaultPolicy (argsToProps [JVal.vnum 1]) (argsToProps [JVal.vnum 1])
      .vnull .vnull = false
    ∧ shouldUpdate defaultPolicy (argsToProps [JVal.vnum 1]) (argsToProps [JVal.vnum 2])
      .vnull .vnull = true
    ∧ (cachedCall (shouldUpdate defaultPolicy) (fun as => .ok (JVal.varr as))
        none [JVal.vnum 1]
        = (.ok (.varr [JVal.vnum 1]), some ⟨[JVal.vnum 1], .varr [JVal.vnum 1]⟩, true)
      ∧ cachedCall (shouldUpdate defaultPolicy) (fun as => .ok (JVal.varr as))
        (some ⟨[JVal.vnum 1], .varr [JVal.vnum 1]⟩) [JVal.vnum 1]
        = (.ok (.varr [JVal.vnum 1]), some ⟨[JVal.vnum 1], .varr [JVal.vnum 1]⟩, false)
      ∧ cachedCall (shouldUpdate defaultPolicy) (fun as => .ok (JVal.varr as))
        (some ⟨[JVal.vnum 1], .varr [JVal.vnum 1]⟩) [JVal.vnum 2]
        = (.ok (.varr [JVal.vnum 2]), some ⟨[JVal.vnum 2], .varr [JVal.vnum 2]⟩, true)) :=
  ⟨by decide, by decide,
    C3_single_slot_memoization (shouldUpdate defaultPolicy) (fun as => JVal.varr as)
      [JVal.vnum 1] [JVal.vnum 1] [JVal.vnum 2] (by decide) (by decide)⟩

/-- C4: if the wrapped computation raises, the error propagates to the
caller unchanged and the cache slot is left untouched, so a subsequent call
with the old arguments still returns the old cached result without
invoking the computation. -/
theorem C4_error_leaves_cache_untouched (upd : UpdateFn)
    (f : List JVal → Except String JVal) (c : CacheSlot) (args : List JVal) (e : String)
    (herr : f args = .error e)
    (hchanged : upd (argsToProps c.args) (argsToProps args) .vnull .vnull = true)
    (hsame : upd (argsToProps c.args) (argsToProps c.args) .vnull .vnull = false) :
    cachedCall upd f (some c) args = (.error e, some c, true)
    ∧ cachedCall upd f (some c) c.args = (.ok c.result, some c, false) := by
  constructor
  · simp [cachedCall, cacheInvoke, herr, hchanged]
  · simp [cachedCall, hsame]

/-- Witness for C4: a computation that raises on the new arguments leaves
the slot for `[1]` intact and replays its cached result. -/
theorem C4_error_leaves_cache_untouched_witness :
    ((fun _ => Except.error "boom" : List JVal → Except String JVal) [JVal.vnum 2]
      = .error "boom")
    ∧ shouldUpdate defaultPolicy (argsToProps [JVal.vnum 1]) (argsToProps [JVal.vnum 2])
      .vnull .vnull = true
    ∧ shouldUpdate defaultPolicy (argsToProps [JVal.vnum 1]) (argsToProps [JVal.vnum 1])
      .vnull .vnull = false
    ∧ (cachedCall (shouldUpdate defaultPolicy) (fun _ => Except.error "boom")
        (some ⟨[JVal.vnum 1], .vstr "r1"⟩) [JVal.vnum 2]
        = (.error "boom", some ⟨[JVal.vnum 1], .vstr "r1"⟩, true)
      ∧ cachedCall (shouldUpdate defaultPolicy) (fun _ => Except.error "boom")
        (some ⟨[JVal.vnum 1], .vstr "r1"⟩) [JVal.vnum 1]
        = (.ok (.vstr "r1"), some ⟨[JVal.vnum 1], .vstr "r1"⟩, false)) :=
  ⟨rfl, by decide, by decide,
    C4_error_leaves_cache_untouched (shouldUpdate defaultPolicy)
      (fun _ => Except.error "boom") ⟨[JVal.vnum 1], .vstr "r1"⟩ [JVal.vnum 2] "boom"
      rfl (by decide) (by decide)⟩

/-- Witness for C6: with the default policy, appending the ignorable
`children` key with a fresh value keeps the verdict false, appending a
fresh non-ignorable key flips it to true. -/
theorem C6_ignorable_keys_witness :
    shouldUpdate defaultPolicy [("a", JVal.vnum 1)] [("a", JVal.vnum 1)]
      .vnull .vnull = false
    ∧ shouldUpdate defaultPolicy [("a", JVal.vnum 1)]
        ([("a", JVal.vnum 1)] ++ [("children", JVal.vnum 2)]) .vnull .vnull = false
    ∧ shouldUpdate defaultPolicy [("a", JVal.vnum 1)]
        ([("a", JVal.vnum 1)] ++ [("b", JVal.vnum 2)]) .vnull .vnull = true :=
  ⟨by decide,
    (C6_ignorable_keys_excluded defaultPolicy [("a", JVal.vnum 1)]
      [("a", JVal.vnum 1)] .vnull .vnull "children" (JVal.vnum 2) (by decide)).1
      (by decide),
    (C6_ignorable_keys_excluded defaultPolicy [("a", JVal.vnum 1)]
      [("a", JVal.vnum 1)] .vnull .vnull "b" (JVal.vnum 2) (by decide)).2
      (by decide) (by decide)⟩

mutual
/-- Translated from `isNode` in `component.js` (lines 371–389): numbers
and strings are valid React nodes, a boolean is a node exactly when it is
`false` (`return !propValue`), an array is a node when every element is, a
React element is a node, and every other object or value is not. -/
def isNode : JVal → Bool
  | .vnum _ => true
  | .vnan => true
  | .vstr _ => true
  | .vbool b => !b
  | .varr xs => isNodeList xs
  | .velem _ => true
  | .vnull => false
  | .vobj _ => false
  | .vcursor _ _ => false
  | .vimm _ => false
  | .vfun _ => false
  | .vundef => false

/-- `Array.prototype.every(isNode)`, used by the array case of `isNode`. -/
def isNodeList : List JVal → Bool
  | [] => true
  | x :: xs => isNode x && isNodeList xs
end

theorem isNodeList_eq_all (xs : List JVal) : isNodeList xs = xs.all isNode := by
  induction xs with
  | nil => rfl
  | cons x xs ih => simp [isNodeList, ih]

/-- Translated from `identity` in `component.js` (lines 424–426). -/
def identity {α : Sort _} (fn : α) : α := fn

/-- JavaScript `arguments[i]`: `undefined` past the end of the list. -/
def argAt (args : List JVal) (i : Nat) : JVal :=
  args.getD i JVal.vundef

/-- Translated from `sliceFrom` in `component.js` (lines 432–436): slice
the arguments array from the first strict-equality (`===`) occurrence of
`value`; `Math.max(indexOf, 0)` starts from the beginning when absent. -/
def sliceFrom (args : List JVal) (value : JVal) : List JVal :=
  match args.findIdx? (fun x => jsStrictEq x value) with
  | some i => args.drop i
  | none => args.drop 0

/-- Translated from `flatten` in `component.js` (lines 438–441): a shallow
flatten, spreading one level of arrays (`Array.prototype.concat`). -/
def flatten (xs : List JVal) : List JVal :=
  (xs.map (fun x => match x with | .varr ys => ys | v => [v])).flatten

/-- `lodash.assign` onto a fresh target, as used by `create`: the own
fields of a plain object; primitives, `null` and `undefined` contribute no
fields.  (The index keys that `assign` would copy from strings and arrays
are not modelled; no claim passes those as props.) -/
def objFields : JVal → List (String × JVal)
  | .vobj fs => fs
  | .velem fs => fs
  | _ => []

/-- JavaScript property assignment `obj[k] = v` on the field-list
representation of an object: replaces the binding of `k` or appends it. -/
def setField (fields : List (String × JVal)) (k : String) (v : JVal) :
    List (String × JVal) :=
  if fields.any (fun kv => kv.1 == k) then
    fields.map (fun kv => if kv.1 == k then (k, v) else kv)
  else fields ++ [(k, v)]

/-- The internal React class built by `ComponentCreator`, as far as the
claims observe it. -/
structure ComponentClass where
  displayName : Option String
deriving Repr

/-- The options object accepted by `factory` (`component.js` line 107);
`none` models an absent key. -/
structure Options where
  shouldComponentUpdate : Option UpdateFn := none
  isCursor : Option (JVal → Bool) := none
  isImmutable : Option (JVal → Bool) := none
  cursorField : Option String := none
  isNode : Option (JVal → Bool) := none
  classDecorator : Option (ComponentClass → ComponentClass) := none
  isEqualProps : Option (JVal → JVal → Bool) := none
  isEqualState : Option (JVal → JVal → Bool) := none
  isIgnorable : Option (String → JVal → Bool) := none
  unCursor : Option (JVal → JVal) := none

/-- Modelled from the spec: `shouldComponentUpdate.withDefaults`, called by
`factory` to build the default update-decision policy from the remaining
options (§6) — the module `shouldupdate.js` itself is not under `src/`.
Every absent option falls back to its built-in default. -/
def policyFromOptions (o : Options) : Policy :=
  { isEqualProp := o.isEqualProps.getD
      (isEqualWith (o.isCursor.getD defaultIsCursor)
        (o.isImmutable.getD defaultIsImmutable)
        (o.unCursor.getD defaultUnCursor))
    isEqualState := o.isEqualState.getD defaultIsEqualState
    isIgnorable := o.isIgnorable.getD defaultIsIgnorable }

/-- The local configuration resolved by `factory` (`component.js` lines
107–117). -/
structure FactoryConfig where
  shouldComponentUpdate : UpdateFn
  isCursor : JVal → Bool
  isImmutable : JVal → Bool
  hiddenCursorField : String
  isNode : JVal → Bool
  classDecorator : ComponentClass → ComponentClass

/-- Translated from `factory` in `component.js` (lines 107–117): each
option, when absent, falls back to its built-in default.  JavaScript `||`
tests truthiness, so a supplied but empty `cursorField` string (falsy)
also falls back to `'__singleCursor'`; the function-valued options are
always truthy when present. -/
def factory (o : Options) : FactoryConfig :=
  { shouldComponentUpdate :=
      o.shouldComponentUpdate.getD (shouldUpdate (policyFromOptions o))
    isCursor := o.isCursor.getD defaultIsCursor
    isImmutable := o.isImmutable.getD defaultIsImmutable
    hiddenCursorField :=
      match o.cursorField with
      | some s => if s.isEmpty then "__singleCursor" else s
      | none => "__singleCursor"
    isNode := o.isNode.getD isNode
    classDecorator := o.classDecorator.getD identity }

/-- Translated from `create` in `component.js` (lines 257–301), the
element factory returned by `ComponentCreator`; `args` is the JavaScript
`arguments` array.  `none` models the branch where React instantiates the
function as a class (third argument an object that is not a node).  The
result is the `_props` object handed to `React.createElement`: a single
props value classified as cursor or immutable is moved under the hidden
cursor field, otherwise the props' own fields are copied; a truthy key and
a non-empty filtered child list are then added. -/
def create (cfg : FactoryConfig) (args : List JVal) : Option (List (String × JVal)) :=
  if jsTypeof (argAt args 2) == "object" && !cfg.isNode (argAt args 2) then none
  else
    let key0 := argAt args 0
    let props0 := argAt args 1
    let kp := if jsTypeof key0 == "object" then (JVal.vundef, key0) else (key0, props0)
    let key := kp.1
    let props := kp.2
    let children := flatten ((sliceFrom args props).filter cfg.isNode)
    let base :=
      if cfg.isCursor props || cfg.isImmutable props then
        [(cfg.hiddenCursorField, props)]
      else objFields props
    let withKey := if truthy key then setField base "key" key else base
    if children.length != 0 then some (setField withKey "children" (.varr children))
    else some withKey

/-- Translated from the `render` method in `component.js` (lines 229–236):
when debugging is active a `render` record is logged; the input is
`this.props[_hiddenCursorField] || this.props` and `this.cursor` is set to
`this.props[_hiddenCursorField]`; the user-supplied render function is
then called with the input (it is passed `this.cursor` here as its first
argument).  Returns the render output beside the emitted log records. -/
def renderComponent (hiddenField : String) (userRender : JVal → JVal → JVal)
    (dbg : Bool) (props : List (String × JVal)) : JVal × List String :=
  let logs := if dbg then ["render"] else []
  let stored := (lookupField props hiddenField).getD .vundef
  let input := if truthy stored then stored else .vobj props
  (userRender stored input, logs)

theorem jsStrictEq_refl_of_typeof_object {p : JVal} (h : jsTypeof p = "object") :
    jsStrictEq p p = true := by
  cases p <;> simp [jsTypeof] at h <;> simp [jsStrictEq, jbeq_refl]

theorem argAt_cons_zero (x : JVal) (xs : List JVal) : argAt (x :: xs) 0 = x := rfl

theorem argAt_cons_succ (x : JVal) (xs : List JVal) (n : Nat) :
    argAt (x :: xs) (n + 1) = argAt xs n := rfl

theorem argAt_nil (n : Nat) : argAt [] n = .vundef := rfl

theorem sliceFrom_single_self {p : JVal} (hself : jsStrictEq p p = true) :
    sliceFrom [p] p = [p] := by
  simp [sliceFrom, List.findIdx?_cons, hself]

theorem create_single_props (cfg : FactoryConfig) (p : JVal)
    (hobj : (jsTypeof p == "object") = true)
    (hself : jsStrictEq p p = true)
    (hcls : (cfg.isCursor p || cfg.isImmutable p) = true)
    (hnode : cfg.isNode p = false) :
    create cfg [p] = some [(cfg.hiddenCursorField, p)] := by
  have hguard : (jsTypeof JVal.vundef == "object") = false := by decide
  unfold create
  simp only [argAt_cons_zero, argAt_cons_succ, argAt_nil]
  simp [hguard, hobj, hcls, hnode, sliceFrom_single_self hself, flatten, truthy]

/-- C7 counterexample: the claim says every supplied option is used
instead of the default, but `factory` resolves options with JavaScript
`||`, so the supplied (falsy) empty-string `cursorField` is discarded and
the default `'__singleCursor'` is used. -/
theorem C7_counterexample_empty_cursorField :
    (factory { cursorField := some "" }).hiddenCursorField = "__singleCursor"
    ∧ (factory { cursorField := some "" }).hiddenCursorField ≠ "" :=
  ⟨rfl, by decide⟩

/-- C7 (amended): every absent option falls back to its built-in default
(`shouldComponentUpdate` to the policy built from the remaining options),
and every supplied option is used instead of the default — except that a
supplied `cursorField` is only used when it is a non-empty string, the
empty string being falsy under the `||` fallback. -/
theorem C7_amended_option_fallbacks (o : Options) :
    (o.shouldComponentUpdate = none →
      (factory o).shouldComponentUpdate = shouldUpdate (policyFromOptions o))
    ∧ (∀ f, o.shouldComponentUpdate = some f → (factory o).shouldComponentUpdate = f)
    ∧ (o.isCursor = none → (factory o).isCursor = defaultIsCursor)
    ∧ (∀ f, o.isCursor = some f → (factory o).isCursor = f)
    ∧ (o.isImmutable = none → (factory o).isImmutable = defaultIsImmutable)
    ∧ (∀ f, o.isImmutable = some f → (factory o).isImmutable = f)
    ∧ (o.cursorField = none → (factory o).hiddenCursorField = "__singleCursor")
    ∧ (∀ s, o.cursorField = some s → s.isEmpty = false →
        (factory o).hiddenCursorField = s)
    ∧ (o.isNode = none → (factory o).isNode = isNode)
    ∧ (∀ f, o.isNode = some f → (factory o).isNode = f)
    ∧ (o.classDecorator = none → (factory o).classDecorator = identity)
    ∧ (∀ f, o.classDecorator = some f → (factory o).classDecorator = f) := by
  refine ⟨fun h => ?_, fun f h => ?_, fun h => ?_, fun f h => ?_, fun h => ?_,
    fun f h => ?_, fun h => ?_, fun s h hs => ?_, fun h => ?_, fun f h => ?_,
    fun h => ?_, fun f h => ?_⟩ <;>
  simp [factory, h, *]

/-- Witness for C7: a non-empty supplied `cursorField` is used; the absent
cursor classifier falls back to the default. -/
theorem C7_amended_option_fallbacks_witness :
    Options.cursorField { cursorField := some "foo" } = some "foo"
    ∧ String.isEmpty "foo" = false
    ∧ (factory { cursorField := some "foo" }).hiddenCursorField = "foo"
    ∧ Options.isCursor { cursorField := some "foo" } = none
    ∧ (factory { cursorField := some "foo" }).isCursor = defaultIsCursor := by
  obtain ⟨h1, h2, h3, h4, h5, h6, h7, h8, h9, h10, h11, h12⟩ :=
    C7_amended_option_fallbacks { cursorField := some "foo" }
  exact ⟨rfl, rfl, h8 "foo" rfl rfl, rfl, h3 rfl⟩

/-- C8: the debug/trace side effect is purely observational: the traced
update decision returns the same verdict as the untraced one whether or
not tracing is enabled, and the `render` method returns the same output
with debugging on and off (only the emitted log records differ). -/
theorem C8_debug_is_observational (pol : Policy)
    (prevProps nextProps : List (String × JVal)) (prevState nextState : JVal)
    (hiddenField : String) (u : JVal → JVal → JVal) (props : List (String × JVal)) :
    (shouldUpdateTraced pol true prevProps nextProps prevState nextState).fst
      = shouldUpdate pol prevProps nextProps prevState nextState
    ∧ (shouldUpdateTraced pol false prevProps nextProps prevState nextState).fst
      = shouldUpdate pol prevProps nextProps prevState nextState
    ∧ (renderComponent hiddenField u true props).fst
      = (renderComponent hiddenField u false props).fst :=
  ⟨shouldUpdateTraced_fst pol true prevProps nextProps prevState nextState,
    shouldUpdateTraced_fst pol false prevProps nextProps prevState nextState,
    rfl⟩

/-- C9 counterexample: configure the cursor classifier to accept `null`.
`create` dutifully stores `null` under the hidden cursor field, but the
`render` method unwraps with JavaScript `||`, which rejects the falsy
stored value: the user render function receives the whole props object,
not the original `null` — so the round trip of the claim fails for a
falsy props value classified as a cursor. -/
theorem C9_counterexample_falsy_cursor :
    (factory { isCursor := some (fun v => jbeq v .vnull) }).isCursor .vnull = true
    ∧ create (factory { isCursor := some (fun v => jbeq v .vnull) }) [.vnull]
        = some [("__singleCursor", .vnull)]
    ∧ (renderComponent "__singleCursor" (fun _ input => input) false
        [("__singleCursor", .vnull)]).fst ≠ .vnull := by
  refine ⟨rfl, rfl, ?_⟩
  intro h
  have h2 : JVal.vobj [("__singleCursor", JVal.vnull)] = JVal.vnull := h
  exact JVal.noConfusion h2

/-- C9 (amended): for every props value `p` of object type that is truthy
(every genuine cursor or immutable structure is) and classified as cursor
or immutable by the configured predicates (and not a React node, as no
cursor is), invoking the element factory with `p` as the sole argument
stores `p` unchanged under the hidden cursor field of a fresh props
object, and the component's `render` passes exactly `p` back to the
user-supplied render function, exposing it as `this.cursor` too. -/
theorem C9_amended_cursor_roundtrip (o : Options) (u : JVal → JVal → JVal)
    (dbg : Bool) (p : JVal)
    (hcls : ((factory o).isCursor p || (factory o).isImmutable p) = true)
    (hobj : jsTypeof p = "object")
    (htr : truthy p = true)
    (hnode : (factory o).isNode p = false) :
    create (factory o) [p] = some [((factory o).hiddenCursorField, p)]
    ∧ (renderComponent (factory o).hiddenCursorField u dbg
        [((factory o).hiddenCursorField, p)]).fst = u p p := by
  constructor
  · exact create_single_props (factory o) p (by simp [hobj])
      (jsStrictEq_refl_of_typeof_object hobj) hcls hnode
  · simp [renderComponent, lookupField, htr]

/-- Witness for C9: a real cursor round-trips through `create` and
`render` under the default configuration. -/
theorem C9_amended_cursor_roundtrip_witness :
    ((factory {}).isCursor (.vcursor 0 7) || (factory {}).isImmutable (.vcursor 0 7))
      = true
    ∧ jsTypeof (.vcursor 0 7) = "object"
    ∧ truthy (.vcursor 0 7) = true
    ∧ (factory {}).isNode (.vcursor 0 7) = false
    ∧ (create (factory {}) [.vcursor 0 7]
        = some [((factory {}).hiddenCursorField, .vcursor 0 7)]
      ∧ (renderComponent (factory {}).hiddenCursorField (fun a b => .varr [a, b]) true
          [((factory {}).hiddenCursorField, .vcursor 0 7)]).fst
        = (fun a b => JVal.varr [a, b]) (.vcursor 0 7) (.vcursor 0 7)) :=
  ⟨rfl, rfl, rfl, rfl,
    C9_amended_cursor_roundtrip {} (fun a b => .varr [a, b]) true (.vcursor 0 7)
      rfl rfl rfl rfl⟩

/-- C10: the private node predicate negates booleans — `isNode false` is
true and `isNode true` is false — so a literal `true` passed as a trailing
child argument is filtered out of `props.children` while `false` is kept;
numbers and strings are nodes, an array is a node exactly when all its
elements are, and a plain (non-element) object is not. -/
theorem C10_isNode_boolean_asymmetry :
    (∀ b, isNode (.vbool b) = !b)
    ∧ isNode (.vbool false) = true
    ∧ isNode (.vbool true) = false
    ∧ (∀ n, isNode (.vnum n) = true)
    ∧ isNode .vnan = true
    ∧ (∀ s, isNode (.vstr s) = true)
    ∧ (∀ xs, isNode (.varr xs) = xs.all isNode)
    ∧ (∀ fs, isNode (.vobj fs) = false)
    ∧ create (factory {}) [.vobj [("a", .vnum 1)], .vbool false, .vbool true]
        = some [("a", .vnum 1), ("children", .varr [.vbool false])] :=
  ⟨fun _ => rfl, rfl, rfl, fun _ => rfl, rfl, fun _ => rfl,
    fun xs => isNodeList_eq_all xs, fun _ => rfl, rfl⟩

end Omniscient
